import Mathlib

/-!
Verification of `backend/app/services/gateway_manager.py` (and the
`terminal_output` handler of `backend/app/api/machine_gateway.py`).

Modelling conventions for the shallow embedding:

* `UUID`, websocket handles, future identities and timestamps are `Nat`s;
  JSON payloads are opaque `String`s (`Payload`).
* Python `dict`s become association lists; `ainsert` replaces any previous
  binding (dict assignment), `aerase` removes it (dict `pop`).  Insertion
  order of the Python dict is not modelled; no claim depends on it.
* `asyncio.Future` objects are shared mutable cells: they live in a global
  table `MState.futures` keyed by `FId`, while a record's
  `pending_requests` maps correlation ids to `FId`s.  This keeps a future
  observable by a suspended caller even after its record left the registry,
  exactly as object references do in Python.
* Side effects on websockets are logged: `closedLog` records every
  `close()` attempt (errors are swallowed by the code, so an attempt is all
  there is to observe), `sentLog` records every successful `send_text`.
  Whether a given `send_text` raises is an oracle argument (`sendOk`).
* `utcnow()` becomes an explicit `now : Time` argument.
* `request_with_response` suspends twice (at `send_text` and at
  `asyncio.wait_for`).  It is split into the atomic segment before the
  suspension (`rwr_start`) and the atomic segment after wake-up
  (`rwr_finish`); arbitrary manager operations (`Event`s) may run in
  between.  `wait_for` wakes either because the future completed or because
  its timer fired; if the future is still pending at wake-up the wake-up
  was the timeout, in which case CPython's `wait_for` cancels the future
  and raises `TimeoutError` (caught, `None` returned).  A future completed
  by `Future.cancel()` makes `wait_for` raise `asyncio.CancelledError`,
  which — `CancelledError` deriving from `BaseException` since Python 3.8 —
  is caught by neither `except asyncio.TimeoutError` nor
  `except Exception` and therefore propagates (`RwrResult.raiseCancelled`).
* The `finally: gateway.pending_requests.pop(request_id, None)` acts on the
  record *object* captured at call start.  `popWaiter` models this aliasing
  by updating the registry entry only when it still holds this call's
  waiter binding (fresh `FId`s make the guard exact): a record installed by
  a superseding `register` is a different object and is left untouched.
-/

namespace GatewayMgr

abbrev UUID := Nat
abbrev Ws := Nat
abbrev FId := Nat
abbrev Time := Nat
abbrev Payload := String

/-- State of an `asyncio.Future` used as a pending-request waiter. -/
inductive FutureState where
  | pending
  | resolved (response : Payload)
  | cancelled
deriving DecidableEq

/-- `Future.done()`: anything but pending. -/
def FutureState.done : FutureState → Bool
  | .pending => false
  | .resolved _ => true
  | .cancelled => true

/-- Message frames passed to `websocket.send_text` (after `json.dumps`). -/
inductive Msg where
  | task (task_id : UUID) (queue_entry_id : Int) (payload : Payload)
  | request (request_type : String) (request_id : String) (payload : Payload)
  | output (content : String)
  | other (text : String)
deriving DecidableEq

/-- The `ConnectedGateway` dataclass.  `pending_requests` maps correlation
ids to future identities in the global futures table; `terminal_sessions`
maps session ids to client websocket handles. -/
structure ConnectedGateway where
  machine_id : UUID
  organization_id : UUID
  connection_id : Int
  websocket : Ws
  connected_at : Time
  last_heartbeat_at : Time
  gateway_version : Option String
  agents_managed : Int
  pending_requests : List (String × FId)
  terminal_sessions : List (String × Ws)
deriving DecidableEq

/-- Whole-manager state: the `GatewayManager._connections` dict, the global
table of future cells, a fresh-future counter, and the effect logs. -/
structure MState where
  connections : List (UUID × ConnectedGateway)
  futures : List (FId × FutureState)
  nextF : FId
  closedLog : List Ws
  sentLog : List (Ws × Msg)
deriving DecidableEq

/-- The manager starts with an empty registry. -/
def MState.empty : MState :=
  { connections := [], futures := [], nextF := 0, closedLog := [], sentLog := [] }

/-! ### Association-list primitives (Python `dict` operations) -/

/-- `d.get(k)`: first binding of `k`. -/
def alookup {α β : Type} [DecidableEq α] (k : α) : List (α × β) → Option β
  | [] => none
  | p :: rest => if p.1 = k then some p.2 else alookup k rest

/-- `d.pop(k, None)` / `del d[k]`: remove every binding of `k`. -/
def aerase {α β : Type} [DecidableEq α] (k : α) : List (α × β) → List (α × β)
  | [] => []
  | p :: rest => if p.1 = k then aerase k rest else p :: aerase k rest

/-- `d[k] = v`: bind `k` to `v`, replacing any previous binding. -/
def ainsert {α β : Type} [DecidableEq α] (k : α) (v : β) (l : List (α × β)) :
    List (α × β) :=
  (k, v) :: aerase k l

/-- Keys of an association list. -/
def akeys {α β : Type} (l : List (α × β)) : List α :=
  l.map Prod.fst

/-! ### The manager's operations, one definition per Python method -/

/-- `GatewayManager.register`: close (attempt) the websocket of any existing
record for this machine, then install a fresh record.  Returns the new
record, as the Python method does. -/
def register (st : MState) (now : Time) (machine_id organization_id : UUID)
    (connection_id : Int) (websocket : Ws) (gateway_version : Option String) :
    ConnectedGateway × MState :=
  let closed' :=
    match alookup machine_id st.connections with
    | some existing => st.closedLog ++ [existing.websocket]
    | none => st.closedLog
  let gw : ConnectedGateway :=
    { machine_id := machine_id
      organization_id := organization_id
      connection_id := connection_id
      websocket := websocket
      connected_at := now
      last_heartbeat_at := now
      gateway_version := gateway_version
      agents_managed := 0
      pending_requests := []
      terminal_sessions := [] }
  (gw, { st with
          connections := ainsert machine_id gw st.connections
          closedLog := closed' })

/-- `if not future.done(): future.cancel()` for one waiter's future. -/
def cancelOne (futures : List (FId × FutureState)) (fid : FId) :
    List (FId × FutureState) :=
  match alookup fid futures with
  | some .pending => ainsert fid .cancelled futures
  | _ => futures

/-- Cancel the futures of every waiter in a record's `pending_requests`. -/
def cancelPending (reqs : List (String × FId)) (futures : List (FId × FutureState)) :
    List (FId × FutureState) :=
  reqs.foldl (fun fs p => cancelOne fs p.2) futures

/-- `GatewayManager.unregister`: pop the record if present and cancel all of
its still-pending waiters; a no-op on an absent identity. -/
def unregister (st : MState) (machine_id : UUID) : MState :=
  match alookup machine_id st.connections with
  | none => st
  | some gw =>
      { st with
        connections := aerase machine_id st.connections
        futures := cancelPending gw.pending_requests st.futures }

/-- `GatewayManager.get`. -/
def get (st : MState) (machine_id : UUID) : Option ConnectedGateway :=
  alookup machine_id st.connections

/-- `GatewayManager.get_by_organization`. -/
def get_by_organization (st : MState) (organization_id : UUID) :
    List ConnectedGateway :=
  (st.connections.map Prod.snd).filter
    (fun gw => gw.organization_id == organization_id)

/-- `GatewayManager.is_connected`. -/
def is_connected (st : MState) (machine_id : UUID) : Bool :=
  (alookup machine_id st.connections).isSome

/-- `GatewayManager.connected_count`. -/
def connected_count (st : MState) : Nat :=
  st.connections.length

/-- `GatewayManager.connected_machines`. -/
def connected_machines (st : MState) : List UUID :=
  akeys st.connections

/-- `GatewayManager.update_heartbeat`: refresh the heartbeat timestamp and,
when a value was supplied, the `agents_managed` counter. -/
def update_heartbeat (st : MState) (now : Time) (machine_id : UUID)
    (agents_managed : Option Int) : MState :=
  match alookup machine_id st.connections with
  | none => st
  | some gw =>
      let gw' := { gw with
                    last_heartbeat_at := now
                    agents_managed := agents_managed.getD gw.agents_managed }
      { st with connections := ainsert machine_id gw' st.connections }

/-- `GatewayManager.send_message`: `False` when the identity is absent; on a
`send_text` failure (`sendOk = false`) the connection is unregistered and
`False` returned; otherwise the frame is delivered and `True` returned. -/
def send_message (st : MState) (machine_id : UUID) (message : Msg)
    (sendOk : Bool) : Bool × MState :=
  match alookup machine_id st.connections with
  | none => (false, st)
  | some gw =>
      if sendOk then
        (true, { st with sentLog := st.sentLog ++ [(gw.websocket, message)] })
      else
        (false, unregister st machine_id)

/-- `GatewayManager.send_task`: wrap the task frame and delegate. -/
def send_task (st : MState) (machine_id : UUID) (task_id : UUID)
    (queue_entry_id : Int) (payload : Payload) (sendOk : Bool) : Bool × MState :=
  send_message st machine_id (.task task_id queue_entry_id payload) sendOk

/-- `GatewayManager.handle_response`: resolve the waiter for `request_id`
if it exists and its future is not yet done; otherwise do nothing. -/
def handle_response (st : MState) (machine_id : UUID) (request_id : String)
    (response : Payload) : MState :=
  match alookup machine_id st.connections with
  | none => st
  | some gw =>
      match alookup request_id gw.pending_requests with
      | none => st
      | some fid =>
          match alookup fid st.futures with
          | some .pending =>
              { st with futures := ainsert fid (.resolved response) st.futures }
          | _ => st

/-- One iteration of the `broadcast_to_organization` loop: `send_message`
to this gateway's machine and bump the success counter when it returned
`True`. -/
def broadcastStep (message : Msg) (sendOk : UUID → Bool)
    (acc : Nat × MState) (gw : ConnectedGateway) : Nat × MState :=
  let r := send_message acc.2 gw.machine_id message (sendOk gw.machine_id)
  (if r.1 then acc.1 + 1 else acc.1, r.2)

/-- `GatewayManager.broadcast_to_organization`: snapshot the organization's
gateways, send to each, count successes.  `sendOk` says, per machine,
whether its `send_text` succeeds. -/
def broadcast_to_organization (st : MState) (organization_id : UUID)
    (message : Msg) (sendOk : UUID → Bool) : Nat × MState :=
  (get_by_organization st organization_id).foldl (broadcastStep message sendOk) (0, st)

/-- The aggregate returned by `GatewayManager.get_stats`. -/
structure Stats where
  connected_gateways : Nat
  total_agents_managed : Int
  organizations : Nat
  terminal_sessions : Nat
deriving DecidableEq

/-- `GatewayManager.get_stats`: computed from the registry on every call. -/
def get_stats (st : MState) : Stats :=
  let gws := st.connections.map Prod.snd
  { connected_gateways := st.connections.length
    total_agents_managed := (gws.map (fun gw => gw.agents_managed)).sum
    organizations := (gws.map (fun gw => gw.organization_id)).dedup.length
    terminal_sessions := (gws.map (fun gw => gw.terminal_sessions.length)).sum }

/-- `GatewayManager.register_terminal_session`. -/
def register_terminal_session (st : MState) (machine_id : UUID)
    (session_id : String) (websocket : Ws) : MState :=
  match alookup machine_id st.connections with
  | none => st
  | some gw =>
      { st with
        connections := ainsert machine_id
          { gw with terminal_sessions := ainsert session_id websocket gw.terminal_sessions }
          st.connections }

/-- `GatewayManager.unregister_terminal_session`. -/
def unregister_terminal_session (st : MState) (machine_id : UUID)
    (session_id : String) : MState :=
  match alookup machine_id st.connections with
  | none => st
  | some gw =>
      { st with
        connections := ainsert machine_id
          { gw with terminal_sessions := aerase session_id gw.terminal_sessions }
          st.connections }

/-- `GatewayManager.relay_terminal_output`: forward one output frame to the
client websocket bound to `session_id`; `False` (and no effect) when the
machine is not connected or no binding exists; on a client send failure the
binding is dropped and `False` returned. -/
def relay_terminal_output (st : MState) (machine_id : UUID)
    (session_id : String) (content : String) (sendOk : Bool) : Bool × MState :=
  match alookup machine_id st.connections with
  | none => (false, st)
  | some gw =>
      match alookup session_id gw.terminal_sessions with
      | none => (false, st)
      | some client_ws =>
          if sendOk then
            (true, { st with sentLog := st.sentLog ++ [(client_ws, .output content)] })
          else
            (false, { st with
                      connections := ainsert machine_id
                        { gw with terminal_sessions := aerase session_id gw.terminal_sessions }
                        st.connections })

/-- `GatewayManager.get_terminal_session`. -/
def get_terminal_session (st : MState) (machine_id : UUID) (session_id : String) :
    Option Ws :=
  match alookup machine_id st.connections with
  | none => none
  | some gw => alookup session_id gw.terminal_sessions

/-! ### `request_with_response`, split at its suspension point -/

/-- What a (completed) call to `request_with_response` does towards its
caller: return a value, or let `asyncio.CancelledError` propagate. -/
inductive RwrResult where
  | ret (r : Option Payload)
  | raiseCancelled
deriving DecidableEq

/-- Where `request_with_response` stands after its pre-suspension segment. -/
inductive StartResult where
  | noRecord
  | sendFailed
  | awaiting (fid : FId)
deriving DecidableEq

/-- The `finally: gateway.pending_requests.pop(request_id, None)`.  It acts
on the record object captured when the call started; the registry entry is
touched only if it is still that object, witnessed by it still holding this
call's waiter binding `request_id ↦ fid` (the `fid` is fresh, so a record
installed later can never satisfy the guard). -/
def popWaiter (st : MState) (machine_id : UUID) (request_id : String)
    (fid : FId) : MState :=
  match alookup machine_id st.connections with
  | none => st
  | some gw =>
      if alookup request_id gw.pending_requests = some fid then
        { st with
          connections := ainsert machine_id
            { gw with pending_requests := aerase request_id gw.pending_requests }
            st.connections }
      else st

/-- Pre-suspension segment of `GatewayManager.request_with_response`:
look up the record (absent ⇒ `None` immediately, nothing created); else
create a fresh pending future, install the waiter, and attempt the send.
A failing send is caught by `except Exception` and the `finally` pops the
waiter; a successful send leaves the call suspended in `wait_for`. -/
def rwr_start (st : MState) (machine_id : UUID) (request_id : String)
    (request_type : String) (payload : Payload) (sendOk : Bool) :
    StartResult × MState :=
  match alookup machine_id st.connections with
  | none => (.noRecord, st)
  | some gw =>
      let fid := st.nextF
      let gw1 := { gw with pending_requests := ainsert request_id fid gw.pending_requests }
      let st1 := { st with
                    connections := ainsert machine_id gw1 st.connections
                    futures := ainsert fid .pending st.futures
                    nextF := st.nextF + 1 }
      if sendOk then
        (.awaiting fid,
          { st1 with
            sentLog := st1.sentLog ++ [(gw.websocket, .request request_type request_id payload)] })
      else
        (.sendFailed, popWaiter st1 machine_id request_id fid)

/-- Post-wake-up segment of `GatewayManager.request_with_response`.
`wait_for` wakes when the future completed or its timer fired: a resolved
future yields the reply, a cancelled one re-raises `CancelledError`
(uncaught — `except Exception` does not catch a `BaseException`), and a
still-pending future means the timer fired, in which case `wait_for`
cancels the future and `TimeoutError` is caught, returning `None`.  The
`finally` pop runs in every case. -/
def rwr_finish (st : MState) (machine_id : UUID) (request_id : String)
    (fid : FId) : RwrResult × MState :=
  match alookup fid st.futures with
  | some (.resolved r) => (.ret (some r), popWaiter st machine_id request_id fid)
  | some .cancelled => (.raiseCancelled, popWaiter st machine_id request_id fid)
  | _ =>
      let st' := { st with futures := ainsert fid .cancelled st.futures }
      (.ret none, popWaiter st' machine_id request_id fid)

/-- The state `rwr_start` builds when a record `gw` is present, before the
frame is logged as sent: the waiter `request_id ↦ st.nextF` is installed in
the record and a fresh pending future is allocated. -/
def startState (st : MState) (machine_id : UUID) (request_id : String)
    (gw : ConnectedGateway) : MState :=
  { connections := ainsert machine_id
      { gw with pending_requests := ainsert request_id st.nextF gw.pending_requests }
      st.connections
    futures := ainsert st.nextF .pending st.futures
    nextF := st.nextF + 1
    closedLog := st.closedLog
    sentLog := st.sentLog }

/-- `startState` after the request frame was sent successfully. -/
def startStateSent (st : MState) (machine_id : UUID)
    (request_id request_type : String) (payload : Payload)
    (gw : ConnectedGateway) : MState :=
  { startState st machine_id request_id gw with
    sentLog := st.sentLog ++ [(gw.websocket, .request request_type request_id payload)] }

/-- Manager operations that other execution contexts may run while a
`request_with_response` caller is suspended. -/
inductive Event where
  | evRegister (now : Time) (machine_id organization_id : UUID)
      (connection_id : Int) (websocket : Ws) (gateway_version : Option String)
  | evUnregister (machine_id : UUID)
  | evHandleResponse (machine_id : UUID) (request_id : String) (response : Payload)
  | evUpdateHeartbeat (now : Time) (machine_id : UUID) (agents_managed : Option Int)
  | evSendMessage (machine_id : UUID) (message : Msg) (sendOk : Bool)
  | evRegisterTerminal (machine_id : UUID) (session_id : String) (websocket : Ws)
  | evUnregisterTerminal (machine_id : UUID) (session_id : String)
  | evRelayOutput (machine_id : UUID) (session_id : String) (content : String) (sendOk : Bool)
deriving DecidableEq

/-- Effect of one interleaved operation on the manager state. -/
def stepEvent (st : MState) : Event → MState
  | .evRegister now mid org cid ws ver => (register st now mid org cid ws ver).2
  | .evUnregister mid => unregister st mid
  | .evHandleResponse mid rid resp => handle_response st mid rid resp
  | .evUpdateHeartbeat now mid agents => update_heartbeat st now mid agents
  | .evSendMessage mid m ok => (send_message st mid m ok).2
  | .evRegisterTerminal mid sid ws => register_terminal_session st mid sid ws
  | .evUnregisterTerminal mid sid => unregister_terminal_session st mid sid
  | .evRelayOutput mid sid c ok => (relay_terminal_output st mid sid c ok).2

/-- Run a list of interleaved operations. -/
def runEvents (st : MState) (es : List Event) : MState :=
  es.foldl stepEvent st

/-- A whole `request_with_response` call: start, let the operations `es`
run while the caller is suspended, then finish. -/
def rwr_run (st : MState) (machine_id : UUID) (request_id : String)
    (request_type : String) (payload : Payload) (sendOk : Bool)
    (es : List Event) : RwrResult × MState :=
  match rwr_start st machine_id request_id request_type payload sendOk with
  | (.noRecord, st1) => (.ret none, st1)
  | (.sendFailed, st1) => (.ret none, st1)
  | (.awaiting fid, st1) => rwr_finish (runEvents st1 es) machine_id request_id fid

/-- `machine_gateway._handle_terminal_output`: fields are read with
`data.get`, the relay runs only under `if session_id:` (absent or empty
string is falsy), missing `content` defaults to `""`, and the relay's
boolean result is discarded.  A total function: no exception escapes to the
dispatcher loop. -/
def handle_terminal_output (st : MState) (machine_id : UUID)
    (session_id : Option String) (content : Option String) (sendOk : Bool) :
    MState :=
  match session_id with
  | none => st
  | some s =>
      if s = "" then st
      else (relay_terminal_output st machine_id s (content.getD "") sendOk).2

/-! ### Derived notions used by the statements -/

/-- Registry well-formedness: keys are distinct (Python dict keys are) and
each record is stored under its own `machine_id` (what `register` does). -/
def Wf (st : MState) : Prop :=
  (akeys st.connections).Nodup ∧ ∀ p ∈ st.connections, p.2.machine_id = p.1

/-- The record currently registered for `machine_id` (if any) binds the
correlation id `request_id` to this call's waiter `fid`, or does not bind
it at all.  This is what every manager operation preserves once a
`request_with_response` call has installed its waiter: no operation ever
rebinds an existing correlation id to a different future. -/
def WaiterStable (machine_id : UUID) (request_id : String) (fid : FId)
    (st : MState) : Prop :=
  ∀ gw, alookup machine_id st.connections = some gw →
    alookup request_id gw.pending_requests = some fid
    ∨ alookup request_id gw.pending_requests = none

/-- The record installed for machine 1 in `stReg`. -/
def gwReg : ConnectedGateway :=
  { machine_id := 1, organization_id := 2, connection_id := 7, websocket := 10
    connected_at := 100, last_heartbeat_at := 100, gateway_version := some "v1"
    agents_managed := 0, pending_requests := [], terminal_sessions := [] }

/-- The record for machine 1 in `stAwait` (defined below): the waiter for
correlation id `"r1"` is future 0. -/
def gwAwait : ConnectedGateway :=
  { machine_id := 1, organization_id := 2, connection_id := 7, websocket := 10
    connected_at := 100, last_heartbeat_at := 100, gateway_version := some "v1"
    agents_managed := 0, pending_requests := [("r1", 0)], terminal_sessions := [] }

/-- The keyword arguments of one `register` call, apart from the identity. -/
structure RegParams where
  now : Time
  organization_id : UUID
  connection_id : Int
  websocket : Ws
  gateway_version : Option String
deriving DecidableEq

/-- The record a `register` call with these arguments constructs. -/
def newRecord (machine_id : UUID) (p : RegParams) : ConnectedGateway :=
  { machine_id := machine_id
    organization_id := p.organization_id
    connection_id := p.connection_id
    websocket := p.websocket
    connected_at := p.now
    last_heartbeat_at := p.now
    gateway_version := p.gateway_version
    agents_managed := 0
    pending_requests := []
    terminal_sessions := [] }

/-- `register` with packed arguments, keeping only the state. -/
def registerP (st : MState) (machine_id : UUID) (p : RegParams) : MState :=
  (register st p.now machine_id p.organization_id p.connection_id p.websocket
    p.gateway_version).2

/-- A sequence of `register` calls for one identity. -/
def foldRegister (st : MState) (machine_id : UUID) (ps : List RegParams) : MState :=
  ps.foldl (fun s p => registerP s machine_id p) st

/-! ### Concrete states for scenarios and counterexamples -/

/-- Machine 1 (organization 2) registered on websocket 10. -/
def stReg : MState := (register MState.empty 100 1 2 7 10 (some "v1")).2

/-- … after a heartbeat reporting `agents_managed = 3`. -/
def stHb : MState := update_heartbeat stReg 200 1 (some 3)

/-- … after machine 1 disconnected. -/
def stGone : MState := unregister stHb 1

/-- A `request_with_response` caller suspended on machine 1: the waiter for
correlation id `"r1"` is future 0, still pending. -/
def stAwait : MState := (rwr_start stReg 1 "r1" "terminal_start" "q" true).2

/-- … and the connection is unregistered while the caller is suspended. -/
def stAwaitGone : MState := unregister stAwait 1

/-- Two machines in different organizations (machine 1 in organization 2 on
websocket 10, machine 3 in organization 4 on websocket 20). -/
def stTwoOrgs : MState :=
  (register stReg 100 3 4 8 20 none).2

/-- Machine 1 with terminal session `"s1"` bound to client websocket 30 and
`"s2"` bound to client websocket 31. -/
def stTwoSessions : MState :=
  register_terminal_session (register_terminal_session stReg 1 "s1" 30) 1 "s2" 31

/-- The record held for machine 1 in `stTwoSessions`. -/
def gwTwoSessions : ConnectedGateway :=
  { machine_id := 1, organization_id := 2, connection_id := 7, websocket := 10
    connected_at := 100, last_heartbeat_at := 100, gateway_version := some "v1"
    agents_managed := 0, pending_requests := []
    terminal_sessions := [("s2", 31), ("s1", 30)] }

/-! ## Lemmas about the dict primitives -/

section AssocLemmas

variable {α β : Type} [DecidableEq α]

theorem alookup_cons (k : α) (p : α × β) (l : List (α × β)) :
    alookup k (p :: l) = if p.1 = k then some p.2 else alookup k l := rfl

@[simp] theorem alookup_aerase_self (k : α) (l : List (α × β)) :
    alookup k (aerase k l) = none := by
  induction l with
  | nil => rfl
  | cons p rest ih =>
      by_cases h : p.1 = k
      · simpa [aerase, h] using ih
      · simpa [aerase, h, alookup, h] using ih

theorem alookup_aerase_ne {k' k : α} (h : k' ≠ k) (l : List (α × β)) :
    alookup k (aerase k' l) = alookup k l := by
  induction l with
  | nil => rfl
  | cons p rest ih =>
      by_cases hp : p.1 = k'
      · have hpk : ¬ p.1 = k := by rw [hp]; exact h
        simp [aerase, hp, alookup, hpk, ih, h]
      · simp [aerase, hp, alookup, ih]

@[simp] theorem alookup_ainsert_self (k : α) (v : β) (l : List (α × β)) :
    alookup k (ainsert k v l) = some v := by
  simp [ainsert, alookup]

theorem alookup_ainsert_ne {k' k : α} (h : k' ≠ k) (v : β) (l : List (α × β)) :
    alookup k (ainsert k' v l) = alookup k l := by
  simp [ainsert, alookup, h, alookup_aerase_ne h]

theorem mem_of_alookup_eq_some {k : α} {v : β} {l : List (α × β)}
    (h : alookup k l = some v) : (k, v) ∈ l := by
  induction l with
  | nil => simp [alookup] at h
  | cons p rest ih =>
      cases p with
      | mk a b =>
          by_cases hp : a = k
          · subst hp
            simp [alookup] at h
            subst h
            exact List.mem_cons_self _ _
          · simp [alookup, hp] at h
            exact List.mem_cons_of_mem _ (ih h)

theorem alookup_eq_none_iff (k : α) (l : List (α × β)) :
    alookup k l = none ↔ k ∉ akeys l := by
  induction l with
  | nil => simp [alookup, akeys]
  | cons p rest ih =>
      by_cases hp : p.1 = k
      · simp [alookup, akeys, hp]
      · simp [alookup, akeys, hp, ih, Ne.symm hp]

theorem aerase_sublist (k : α) : ∀ l : List (α × β), List.Sublist (aerase k l) l
  | [] => List.Sublist.refl []
  | p :: rest => by
      by_cases hp : p.1 = k
      · simpa [aerase, hp] using (aerase_sublist k rest).cons p
      · simpa [aerase, hp] using (aerase_sublist k rest).cons₂ p

theorem nodup_akeys_aerase (k : α) {l : List (α × β)}
    (hn : (akeys l).Nodup) : (akeys (aerase k l)).Nodup :=
  hn.sublist ((aerase_sublist k l).map Prod.fst)

theorem nodup_akeys_ainsert (k : α) (v : β) {l : List (α × β)}
    (hn : (akeys l).Nodup) : (akeys (ainsert k v l)).Nodup := by
  have h2 : k ∉ akeys (aerase k l) :=
    (alookup_eq_none_iff k (aerase k l)).mp (alookup_aerase_self k l)
  simpa [ainsert, akeys] using List.Nodup.cons h2 (nodup_akeys_aerase k hn)

theorem alookup_eq_some_of_mem {k : α} {v : β} {l : List (α × β)}
    (hn : (akeys l).Nodup) (hm : (k, v) ∈ l) : alookup k l = some v := by
  induction l with
  | nil => cases hm
  | cons p rest ih =>
      simp only [akeys, List.map_cons, List.nodup_cons] at hn
      rcases List.mem_cons.mp hm with heq | hmem
      · subst heq
        simp [alookup]
      · have hp : p.1 ≠ k := by
          intro hk
          exact hn.1 (hk ▸ (List.mem_map.mpr ⟨(k, v), hmem, rfl⟩))
        rw [alookup_cons, if_neg hp]
        exact ih hn.2 hmem

theorem mem_aerase_of_mem {k' : α} {p : α × β} {l : List (α × β)}
    (hm : p ∈ aerase k' l) : p ∈ l :=
  List.Sublist.mem hm (aerase_sublist k' l)

theorem mem_ainsert {k : α} {v : β} {p : α × β} {l : List (α × β)}
    (hm : p ∈ ainsert k v l) : p = (k, v) ∨ p ∈ l := by
  rcases List.mem_cons.mp hm with h | h
  · exact Or.inl h
  · exact Or.inr (mem_aerase_of_mem h)

end AssocLemmas

/-! ## Lemmas about single operations -/

theorem unregister_lookup_self (st : MState) (mid : UUID) :
    alookup mid (unregister st mid).connections = none := by
  unfold unregister
  split
  · next h => exact h
  · next gw h => simp [alookup_aerase_self]

theorem unregister_absent (st : MState) (mid : UUID)
    (h : alookup mid st.connections = none) : unregister st mid = st := by
  unfold unregister
  rw [h]

theorem unregister_some (st : MState) (mid : UUID) (gw : ConnectedGateway)
    (h : alookup mid st.connections = some gw) :
    unregister st mid
      = { st with
          connections := aerase mid st.connections
          futures := cancelPending gw.pending_requests st.futures } := by
  unfold unregister
  rw [h]

theorem unregister_sentLog (st : MState) (mid : UUID) :
    (unregister st mid).sentLog = st.sentLog := by
  unfold unregister
  split <;> rfl

theorem unregister_closedLog (st : MState) (mid : UUID) :
    (unregister st mid).closedLog = st.closedLog := by
  unfold unregister
  split <;> rfl

theorem unregister_lookup_ne (st : MState) {mid mid' : UUID} (h : mid ≠ mid') :
    alookup mid' (unregister st mid).connections = alookup mid' st.connections := by
  unfold unregister
  split
  · rfl
  · exact alookup_aerase_ne h st.connections

theorem send_message_none (st : MState) (mid : UUID) (m : Msg) (ok : Bool)
    (h : alookup mid st.connections = none) :
    send_message st mid m ok = (false, st) := by
  unfold send_message
  rw [h]

theorem send_message_true (st : MState) (mid : UUID) (m : Msg)
    (gw : ConnectedGateway) (h : alookup mid st.connections = some gw) :
    send_message st mid m true
      = (true, { st with sentLog := st.sentLog ++ [(gw.websocket, m)] }) := by
  unfold send_message
  rw [h]
  rfl

theorem send_message_false (st : MState) (mid : UUID) (m : Msg)
    (gw : ConnectedGateway) (h : alookup mid st.connections = some gw) :
    send_message st mid m false = (false, unregister st mid) := by
  unfold send_message
  rw [h]
  rfl

theorem handle_response_connections (st : MState) (mid : UUID) (rid : String)
    (resp : Payload) :
    (handle_response st mid rid resp).connections = st.connections := by
  unfold handle_response
  split
  · rfl
  · split
    · rfl
    · split
      · rfl
      · rfl

/-! ## Claim theorems -/

/-- C7: `unregister` is idempotent: a second `unregister` of the same
identity changes nothing, `unregister` of an absent identity is the
identity on the state, and after any `unregister(identity)` the registry
holds no record for that identity (`get` absent, `is_connected` false). -/
theorem C7_unregister_idempotent (st : MState) (machine_id : UUID) :
    unregister (unregister st machine_id) machine_id = unregister st machine_id
    ∧ (alookup machine_id st.connections = none → unregister st machine_id = st)
    ∧ get (unregister st machine_id) machine_id = none
    ∧ is_connected (unregister st machine_id) machine_id = false := by
  refine ⟨?_, fun h => unregister_absent st machine_id h, ?_, ?_⟩
  · exact unregister_absent _ _ (unregister_lookup_self st machine_id)
  · exact unregister_lookup_self st machine_id
  · simp [is_connected, unregister_lookup_self]

/-- Witness for C7 at a concrete state: double unregister on the empty
registry, and unregister of an absent identity is the identity. -/
theorem C7_witness :
    unregister (unregister MState.empty 1) 1 = unregister MState.empty 1
    ∧ unregister MState.empty 1 = MState.empty := by
  have h := C7_unregister_idempotent MState.empty 1
  exact ⟨h.1, h.2.1 rfl⟩

/-- C9: `send_task` returns `false` exactly when the identity has no record
or the transport write throws; on a write failure the connection is
unregistered as a side effect, on an absent identity the state is left
unchanged; a `true` result means the exact task frame was transmitted (and
nothing else changed). -/
theorem C9_send_task (st : MState) (machine_id task_id : UUID)
    (queue_entry_id : Int) (payload : Payload) (sendOk : Bool) :
    ((send_task st machine_id task_id queue_entry_id payload sendOk).1 = false
        ↔ (alookup machine_id st.connections = none ∨ sendOk = false))
    ∧ (alookup machine_id st.connections = none →
        (send_task st machine_id task_id queue_entry_id payload sendOk).2 = st)
    ∧ (∀ gw, alookup machine_id st.connections = some gw → sendOk = false →
        (send_task st machine_id task_id queue_entry_id payload sendOk).2
          = unregister st machine_id)
    ∧ (∀ gw, alookup machine_id st.connections = some gw → sendOk = true →
        (send_task st machine_id task_id queue_entry_id payload sendOk).1 = true
        ∧ (send_task st machine_id task_id queue_entry_id payload sendOk).2
            = { st with sentLog := st.sentLog
                  ++ [(gw.websocket, Msg.task task_id queue_entry_id payload)] }) := by
  unfold send_task
  cases h : alookup machine_id st.connections with
  | none =>
      rw [send_message_none st machine_id _ sendOk h]
      simp [h]
  | some gw =>
      cases sendOk with
      | false =>
          rw [send_message_false st machine_id _ gw h]
          simp [h]
      | true =>
          rw [send_message_true st machine_id _ gw h]
          simp [h]

/-- Witness for C9: on the empty registry a `send_task` returns `false` and
leaves the state unchanged. -/
theorem C9_witness :
    (send_task MState.empty 1 5 9 "job" true).1 = false
    ∧ (send_task MState.empty 1 5 9 "job" true).2 = MState.empty := by
  have h := C9_send_task MState.empty 1 5 9 "job" true
  exact ⟨h.1.mpr (Or.inl rfl), h.2.1 rfl⟩

/-- C10: a superseding `register` leaves the futures table untouched (the
evicted record's waiters are not cancelled), closes only the evicted
record's own websocket (terminal-session client transports are neither
closed nor touched), and installs a record with empty `pending_requests`
and `terminal_sessions`, `agents_managed = 0`, and both timestamps set to
the registration time. -/
theorem C10_register_frame (st : MState) (now : Time)
    (machine_id organization_id : UUID) (connection_id : Int) (websocket : Ws)
    (gateway_version : Option String) :
    (register st now machine_id organization_id connection_id websocket
        gateway_version).2.futures = st.futures
    ∧ (register st now machine_id organization_id connection_id websocket
        gateway_version).2.sentLog = st.sentLog
    ∧ (register st now machine_id organization_id connection_id websocket
        gateway_version).1
        = { machine_id := machine_id, organization_id := organization_id
            connection_id := connection_id, websocket := websocket
            connected_at := now, last_heartbeat_at := now
            gateway_version := gateway_version, agents_managed := 0
            pending_requests := [], terminal_sessions := [] }
    ∧ get (register st now machine_id organization_id connection_id websocket
        gateway_version).2 machine_id
        = some (register st now machine_id organization_id connection_id websocket
            gateway_version).1
    ∧ (∀ old, alookup machine_id st.connections = some old →
        (register st now machine_id organization_id connection_id websocket
            gateway_version).2.closedLog = st.closedLog ++ [old.websocket])
    ∧ (alookup machine_id st.connections = none →
        (register st now machine_id organization_id connection_id websocket
            gateway_version).2.closedLog = st.closedLog) := by
  unfold register get
  cases h : alookup machine_id st.connections with
  | none => simp [h]
  | some old => simp [h]

/-- Witness for C10: registering machine 1 a second time keeps the futures
table, closes websocket 10, and the new record starts clean. -/
theorem C10_witness :
    (register stReg 300 1 2 8 11 none).2.futures = stReg.futures
    ∧ (register stReg 300 1 2 8 11 none).2.closedLog = stReg.closedLog ++ [10]
    ∧ (register stReg 300 1 2 8 11 none).1.pending_requests = [] := by
  have h := C10_register_frame stReg 300 1 2 8 11 none
  refine ⟨h.1, ?_, ?_⟩
  · have h5 := h.2.2.2.2.1
    have hl : alookup 1 stReg.connections
        = some ((register MState.empty 100 1 2 7 10 (some "v1")).1) := by decide
    simpa using h5 _ hl
  · rw [h.2.2.1]

/-- C4: at most one resolution per correlation id is honored:
`handle_response` for an unknown identity, for an id with no waiter, or for
a waiter whose future is already done is a no-op on the whole state, and a
second `handle_response` for the same correlation id never changes the
state produced by the first. -/
theorem C4_handle_response_once (st : MState) (machine_id : UUID)
    (request_id : String) (response : Payload) :
    (alookup machine_id st.connections = none →
        handle_response st machine_id request_id response = st)
    ∧ (∀ gw, alookup machine_id st.connections = some gw →
        alookup request_id gw.pending_requests = none →
        handle_response st machine_id request_id response = st)
    ∧ (∀ gw fid fs, alookup machine_id st.connections = some gw →
        alookup request_id gw.pending_requests = some fid →
        alookup fid st.futures = some fs → fs.done = true →
        handle_response st machine_id request_id response = st)
    ∧ (∀ response2,
        handle_response (handle_response st machine_id request_id response)
            machine_id request_id response2
          = handle_response st machine_id request_id response) := by
  refine ⟨?_, ?_, ?_, ?_⟩
  · intro h
    simp only [handle_response, h]
  · intro gw h1 h2
    simp only [handle_response, h1, h2]
  · intro gw fid fs h1 h2 h3 h4
    cases fs with
    | pending => simp [FutureState.done] at h4
    | resolved r => simp only [handle_response, h1, h2, h3]
    | cancelled => simp only [handle_response, h1, h2, h3]
  · intro response2
    cases h1 : alookup machine_id st.connections with
    | none =>
        have hst : handle_response st machine_id request_id response = st := by
          simp only [handle_response, h1]
        rw [hst]
        simp only [handle_response, h1]
    | some gw =>
        cases h2 : alookup request_id gw.pending_requests with
        | none =>
            have hst : handle_response st machine_id request_id response = st := by
              simp only [handle_response, h1, h2]
            rw [hst]
            simp only [handle_response, h1, h2]
        | some fid =>
            cases h3 : alookup fid st.futures with
            | none =>
                have hst : handle_response st machine_id request_id response = st := by
                  simp only [handle_response, h1, h2, h3]
                rw [hst]
                simp only [handle_response, h1, h2, h3]
            | some fs =>
                cases fs with
                | pending =>
                    have hst : handle_response st machine_id request_id response
                        = { st with futures :=
                              ainsert fid (.resolved response) st.futures } := by
                      simp only [handle_response, h1, h2, h3]
                    rw [hst]
                    simp only [handle_response, h1, h2, alookup_ainsert_self]
                | resolved r =>
                    have hst : handle_response st machine_id request_id response = st := by
                      simp only [handle_response, h1, h2, h3]
                    rw [hst]
                    simp only [handle_response, h1, h2, h3]
                | cancelled =>
                    have hst : handle_response st machine_id request_id response = st := by
                      simp only [handle_response, h1, h2, h3]
                    rw [hst]
                    simp only [handle_response, h1, h2, h3]

/-- Witness for C4: a response for a correlation id with no waiter on a
live connection, and one for an unknown identity, both leave the concrete
state unchanged. -/
theorem C4_witness :
    handle_response stReg 1 "nosuch" "late" = stReg
    ∧ handle_response stReg 99 "r1" "late" = stReg := by
  have h := C4_handle_response_once stReg 1 "nosuch" "late"
  have h99 := C4_handle_response_once stReg 99 "r1" "late"
  refine ⟨?_, h99.1 rfl⟩
  exact h.2.1 ((register MState.empty 100 1 2 7 10 (some "v1")).1) rfl rfl

/-- C6: `stats()` is computed from the current registry: after machine 1
(organization 2) registers and a heartbeat reporting `agents_managed = 3`
is processed, it reports one connected gateway, three agents, one
organization (and no terminal sessions); after the gateway unregisters it
reports zero connected gateways; and on every state the connected-gateway
count agrees with `connected_count`. -/
theorem C6_stats_scenario :
    get_stats stHb = { connected_gateways := 1, total_agents_managed := 3
                       organizations := 1, terminal_sessions := 0 }
    ∧ (get_stats stGone).connected_gateways = 0
    ∧ ∀ st : MState, (get_stats st).connected_gateways = connected_count st := by
  refine ⟨by decide, by decide, fun st => rfl⟩

/-- C8: a `terminal_output` frame for an unknown session or machine is
dropped without any state change and without an exception (the handler is a
total function, so the dispatcher loop continues); a frame with no
session id is ignored; and a delivered frame goes exactly to the transport
bound to its session id — never to a transport bound to a different
session. -/
theorem C8_terminal_output_routing (st : MState) (machine_id : UUID)
    (session_id : String) (content : String) (sendOk : Bool) :
    handle_terminal_output st machine_id none (some content) sendOk = st
    ∧ (alookup machine_id st.connections = none →
        relay_terminal_output st machine_id session_id content sendOk = (false, st))
    ∧ (∀ gw, alookup machine_id st.connections = some gw →
        alookup session_id gw.terminal_sessions = none →
        relay_terminal_output st machine_id session_id content sendOk = (false, st)
        ∧ handle_terminal_output st machine_id (some session_id) (some content) sendOk = st)
    ∧ (∀ gw w, alookup machine_id st.connections = some gw →
        alookup session_id gw.terminal_sessions = some w → sendOk = true →
        (relay_terminal_output st machine_id session_id content sendOk).2.sentLog
          = st.sentLog ++ [(w, Msg.output content)])
    ∧ (∀ gw w w2, alookup machine_id st.connections = some gw →
        alookup session_id gw.terminal_sessions = some w → sendOk = true →
        w2 ≠ w → (w2, Msg.output content) ∉ st.sentLog →
        (w2, Msg.output content)
          ∉ (relay_terminal_output st machine_id session_id content sendOk).2.sentLog) := by
  have hrel : ∀ gw w, alookup machine_id st.connections = some gw →
      alookup session_id gw.terminal_sessions = some w →
      relay_terminal_output st machine_id session_id content true
        = (true, { st with sentLog := st.sentLog ++ [(w, Msg.output content)] }) := by
    intro gw w h1 h2
    simp [relay_terminal_output, h1, h2]
  refine ⟨rfl, ?_, ?_, ?_, ?_⟩
  · intro h
    unfold relay_terminal_output
    rw [h]
  · intro gw h1 h2
    have hr : relay_terminal_output st machine_id session_id content sendOk
        = (false, st) := by
      simp only [relay_terminal_output, h1, h2]
    refine ⟨hr, ?_⟩
    simp only [handle_terminal_output]
    by_cases hs : session_id = ""
    · rw [if_pos hs]
    · rw [if_neg hs]
      show (relay_terminal_output st machine_id session_id content sendOk).2 = st
      rw [hr]
  · intro gw w h1 h2 hok
    subst hok
    rw [hrel gw w h1 h2]
  · intro gw w w2 h1 h2 hok hne hnot
    subst hok
    rw [hrel gw w h1 h2]
    intro hmem
    rcases List.mem_append.mp hmem with hm | hm
    · exact hnot hm
    · rcases List.mem_singleton.mp hm with heq
      exact hne (congrArg Prod.fst heq)

/-- Witness for C8 at a concrete state: an output frame for an unbound
session `"s9"` on machine 1 changes nothing, and a frame for `"s1"` is
delivered to websocket 30 (bound to `"s1"`) and not to websocket 31
(bound to `"s2"`). -/
theorem C8_witness :
    relay_terminal_output stTwoSessions 1 "s9" "hello" true = (false, stTwoSessions)
    ∧ (relay_terminal_output stTwoSessions 1 "s1" "hello" true).2.sentLog
        = stTwoSessions.sentLog ++ [(30, Msg.output "hello")]
    ∧ (31, Msg.output "hello")
        ∉ (relay_terminal_output stTwoSessions 1 "s1" "hello" true).2.sentLog := by
  have h := C8_terminal_output_routing stTwoSessions 1 "s9" "hello" true
  have h1 := C8_terminal_output_routing stTwoSessions 1 "s1" "hello" true
  refine ⟨?_, ?_, ?_⟩
  · exact (h.2.2.1 gwTwoSessions (by decide) (by decide)).1
  · exact h1.2.2.2.1 gwTwoSessions 30 (by decide) (by decide) rfl
  · exact h1.2.2.2.2 gwTwoSessions 30 31 (by decide) (by decide) rfl (by decide)
      (by decide)

/-! ## Lemmas about registration sequences (for C1) -/

theorem register_connections (st : MState) (now : Time) (mid org : UUID)
    (cid : Int) (ws : Ws) (ver : Option String) :
    (register st now mid org cid ws ver).2.connections
      = ainsert mid (newRecord mid ⟨now, org, cid, ws, ver⟩) st.connections := by
  unfold register newRecord
  split <;> rfl

theorem registerP_get_self (st : MState) (mid : UUID) (p : RegParams) :
    get (registerP st mid p) mid = some (newRecord mid p) := by
  unfold get registerP
  rw [register_connections]
  exact alookup_ainsert_self mid _ st.connections

theorem registerP_closedLog_mono (st : MState) (mid : UUID) (p : RegParams)
    {x : Ws} (hx : x ∈ st.closedLog) : x ∈ (registerP st mid p).closedLog := by
  unfold registerP register
  split
  · exact List.mem_append_left _ hx
  · exact hx

theorem registerP_closes_current (st : MState) (mid : UUID) (p : RegParams)
    {g : ConnectedGateway} (hg : get st mid = some g) :
    g.websocket ∈ (registerP st mid p).closedLog := by
  unfold get at hg
  unfold registerP register
  rw [hg]
  simp

theorem foldRegister_closedLog_mono (mid : UUID) (ps : List RegParams) :
    ∀ (st : MState) (x : Ws), x ∈ st.closedLog →
      x ∈ (foldRegister st mid ps).closedLog := by
  induction ps with
  | nil => intro st x hx; exact hx
  | cons p ps ih =>
      intro st x hx
      exact ih (registerP st mid p) x (registerP_closedLog_mono st mid p hx)

theorem foldRegister_closes (mid : UUID) (ps : List RegParams) (p : RegParams) :
    ∀ (st : MState) (g : ConnectedGateway), get st mid = some g →
      g.websocket ∈ (foldRegister st mid (ps ++ [p])).closedLog := by
  induction ps with
  | nil =>
      intro st g hg
      exact registerP_closes_current st mid p hg
  | cons q ps ih =>
      intro st g hg
      exact foldRegister_closedLog_mono mid (ps ++ [p]) (registerP st mid q)
        g.websocket (registerP_closes_current st mid q hg)

theorem registerP_nodup (st : MState) (mid : UUID) (p : RegParams)
    (hn : (akeys st.connections).Nodup) :
    (akeys (registerP st mid p).connections).Nodup := by
  have h : (registerP st mid p).connections
      = ainsert mid (newRecord mid p) st.connections := register_connections st _ _ _ _ _ _
  rw [h]
  exact nodup_akeys_ainsert mid _ hn

theorem foldRegister_nodup (mid : UUID) (ps : List RegParams) :
    ∀ (st : MState), (akeys st.connections).Nodup →
      (akeys (foldRegister st mid ps).connections).Nodup := by
  induction ps with
  | nil => intro st hn; exact hn
  | cons p ps ih =>
      intro st hn
      exact ih (registerP st mid p) (registerP_nodup st mid p hn)

/-- C1: after any sequence of `register` calls for one identity, `get`
returns exactly the record created by the most recent call; the websocket
of every superseded record — those of the earlier calls in the sequence,
and any record already installed before (see `registerP_closes_current`,
the close happens before the new record is installed) — has had a close
attempted (it is in `closedLog`); and the registry keeps at most one record
per identity (keys stay duplicate-free). -/
theorem C1_latest_register_wins (st : MState) (machine_id : UUID)
    (ps : List RegParams) (p : RegParams) :
    get (foldRegister st machine_id (ps ++ [p])) machine_id
      = some (newRecord machine_id p)
    ∧ (∀ q ∈ ps, q.websocket ∈ (foldRegister st machine_id (ps ++ [p])).closedLog)
    ∧ (∀ g, get st machine_id = some g →
        g.websocket ∈ (foldRegister st machine_id (ps ++ [p])).closedLog)
    ∧ ((akeys st.connections).Nodup →
        (akeys (foldRegister st machine_id (ps ++ [p])).connections).Nodup) := by
  refine ⟨?_, ?_, ?_, fun hn => foldRegister_nodup machine_id (ps ++ [p]) st hn⟩
  · have h : foldRegister st machine_id (ps ++ [p])
        = registerP (foldRegister st machine_id ps) machine_id p := by
      unfold foldRegister
      rw [List.foldl_append]
      rfl
    rw [h]
    exact registerP_get_self _ _ _
  · intro q hq
    induction ps generalizing st with
    | nil => cases hq
    | cons q0 ps ih =>
        rcases List.mem_cons.mp hq with heq | hmem
        · subst heq
          exact foldRegister_closes machine_id ps p (registerP st machine_id q)
            (newRecord machine_id q) (registerP_get_self st machine_id q)
        · exact ih (registerP st machine_id q0) hmem
  · intro g hg
    exact foldRegister_closes machine_id ps p st g hg

/-- Witness for C1: two successive registrations of machine 1 starting
from the empty registry: the second record wins, the first websocket (10)
is closed, and the registry keys stay duplicate-free. -/
theorem C1_witness :
    get (foldRegister MState.empty 1 [⟨100, 2, 7, 10, some "v1"⟩, ⟨200, 2, 8, 11, none⟩]) 1
      = some (newRecord 1 ⟨200, 2, 8, 11, none⟩)
    ∧ 10 ∈ (foldRegister MState.empty 1
        [⟨100, 2, 7, 10, some "v1"⟩, ⟨200, 2, 8, 11, none⟩]).closedLog
    ∧ (akeys (foldRegister MState.empty 1
        [⟨100, 2, 7, 10, some "v1"⟩, ⟨200, 2, 8, 11, none⟩]).connections).Nodup := by
  have h := C1_latest_register_wins MState.empty 1 [⟨100, 2, 7, 10, some "v1"⟩]
    ⟨200, 2, 8, 11, none⟩
  exact ⟨h.1, h.2.1 ⟨100, 2, 7, 10, some "v1"⟩ (List.mem_singleton.mpr rfl),
    h.2.2.2 (by decide)⟩

/-! ## Lemmas about the broadcast loop (for C5) -/

theorem broadcastStep_true (message : Msg) (sendOk : UUID → Bool) (n : Nat)
    (st0 : MState) (g : ConnectedGateway)
    (hok : sendOk g.machine_id = true)
    (hg : alookup g.machine_id st0.connections = some g) :
    broadcastStep message sendOk (n, st0) g
      = (n + 1, { st0 with sentLog := st0.sentLog ++ [(g.websocket, message)] }) := by
  unfold broadcastStep
  rw [hok, send_message_true st0 g.machine_id message g hg]
  rfl

theorem broadcastStep_false (message : Msg) (sendOk : UUID → Bool) (n : Nat)
    (st0 : MState) (g : ConnectedGateway)
    (hok : sendOk g.machine_id = false)
    (hg : alookup g.machine_id st0.connections = some g) :
    broadcastStep message sendOk (n, st0) g = (n, unregister st0 g.machine_id) := by
  unfold broadcastStep
  rw [hok, send_message_false st0 g.machine_id message g hg]
  rfl

theorem broadcast_loop (message : Msg) (sendOk : UUID → Bool) :
    ∀ (gws : List ConnectedGateway) (n : Nat) (st0 : MState),
      (∀ gw ∈ gws, alookup gw.machine_id st0.connections = some gw) →
      (gws.map (fun gw => gw.machine_id)).Nodup →
      (gws.foldl (broadcastStep message sendOk) (n, st0)).1
          = n + (gws.filter (fun gw => sendOk gw.machine_id)).length
      ∧ (gws.foldl (broadcastStep message sendOk) (n, st0)).2.sentLog
          = st0.sentLog ++ (gws.filter (fun gw => sendOk gw.machine_id)).map
              (fun gw => (gw.websocket, message)) := by
  intro gws
  induction gws with
  | nil => intro n st0 _ _; exact ⟨rfl, (List.append_nil _).symm⟩
  | cons g rest ih =>
      intro n st0 hmem hnd
      have hg : alookup g.machine_id st0.connections = some g :=
        hmem g (List.mem_cons_self g rest)
      rw [List.map_cons, List.nodup_cons] at hnd
      cases hok : sendOk g.machine_id with
      | true =>
          rw [List.foldl_cons, broadcastStep_true message sendOk n st0 g hok hg]
          have hmem' : ∀ gw ∈ rest, alookup gw.machine_id
              ({ st0 with sentLog := st0.sentLog ++ [(g.websocket, message)] }
                : MState).connections = some gw :=
            fun gw hgw => hmem gw (List.mem_cons_of_mem g hgw)
          have hrec := ih (n + 1)
            { st0 with sentLog := st0.sentLog ++ [(g.websocket, message)] }
            hmem' hnd.2
          refine ⟨?_, ?_⟩
          · rw [hrec.1, List.filter_cons_of_pos (by simp [hok]), List.length_cons]
            omega
          · rw [hrec.2, List.filter_cons_of_pos (by simp [hok]), List.map_cons]
            simp [List.append_assoc]
      | false =>
          rw [List.foldl_cons, broadcastStep_false message sendOk n st0 g hok hg]
          have hmem' : ∀ gw ∈ rest, alookup gw.machine_id
              (unregister st0 g.machine_id).connections = some gw := by
            intro gw hgw
            have hne : g.machine_id ≠ gw.machine_id := by
              intro he
              exact hnd.1 (he ▸ List.mem_map.mpr ⟨gw, hgw, rfl⟩)
            rw [unregister_lookup_ne st0 hne]
            exact hmem gw (List.mem_cons_of_mem g hgw)
          have hrec := ih n (unregister st0 g.machine_id) hmem' hnd.2
          refine ⟨?_, ?_⟩
          · rw [hrec.1, List.filter_cons_of_neg (by simp [hok])]
          · rw [hrec.2, List.filter_cons_of_neg (by simp [hok]),
              unregister_sentLog]

theorem mem_get_by_organization {st : MState} {org : UUID}
    {gw : ConnectedGateway} (h : gw ∈ get_by_organization st org) :
    gw ∈ st.connections.map Prod.snd ∧ gw.organization_id = org := by
  unfold get_by_organization at h
  have h2 := List.mem_filter.mp h
  exact ⟨h2.1, beq_iff_eq.mp h2.2⟩

theorem get_by_organization_lookup {st : MState} {org : UUID} (hwf : Wf st) :
    ∀ gw ∈ get_by_organization st org,
      alookup gw.machine_id st.connections = some gw := by
  intro gw hgw
  rcases List.mem_map.mp (mem_get_by_organization hgw).1 with ⟨p, hp, hsnd⟩
  have hk : gw.machine_id = p.1 := by rw [← hsnd]; exact hwf.2 p hp
  rw [hk]
  refine alookup_eq_some_of_mem hwf.1 ?_
  rw [← hsnd]
  exact hp

theorem get_by_organization_nodup_ids {st : MState} {org : UUID} (hwf : Wf st) :
    ((get_by_organization st org).map (fun gw => gw.machine_id)).Nodup := by
  have hsub : List.Sublist (get_by_organization st org)
      (st.connections.map Prod.snd) := List.filter_sublist _
  have hmapeq : (st.connections.map Prod.snd).map (fun gw => gw.machine_id)
      = akeys st.connections := by
    rw [List.map_map]
    exact List.map_congr_left fun p hp => hwf.2 p hp
  have hkeys : ((st.connections.map Prod.snd).map
      (fun gw => gw.machine_id)).Nodup := by
    rw [hmapeq]; exact hwf.1
  exact hkeys.sublist (hsub.map _)

/-- C5: `broadcast_to_organization` sends the message to exactly the
currently connected gateways of that organization whose transport accepts
the write (the appended send log records their websockets and nothing
else, so no other organization's gateway receives it), returns the number
of sends that succeeded, and — being a total function to a count — never
raises to the caller. -/
theorem C5_broadcast_exact (st : MState) (organization_id : UUID)
    (message : Msg) (sendOk : UUID → Bool) (hwf : Wf st) :
    (broadcast_to_organization st organization_id message sendOk).1
      = ((get_by_organization st organization_id).filter
          (fun gw => sendOk gw.machine_id)).length
    ∧ (broadcast_to_organization st organization_id message sendOk).2.sentLog
      = st.sentLog ++ ((get_by_organization st organization_id).filter
          (fun gw => sendOk gw.machine_id)).map (fun gw => (gw.websocket, message))
    ∧ (∀ gw ∈ get_by_organization st organization_id,
        gw.organization_id = organization_id) := by
  have hloop := broadcast_loop message sendOk (get_by_organization st organization_id)
    0 st (get_by_organization_lookup hwf) (get_by_organization_nodup_ids hwf)
  refine ⟨?_, ?_, fun gw hgw => (mem_get_by_organization hgw).2⟩
  · unfold broadcast_to_organization
    rw [hloop.1, Nat.zero_add]
  · unfold broadcast_to_organization
    rw [hloop.2]

/-- Witness for C5 on a concrete two-organization registry: broadcasting to
organization 2 succeeds for its single gateway and delivers only to
websocket 10. -/
theorem C5_witness :
    (broadcast_to_organization stTwoOrgs 2 (Msg.other "hello") (fun _ => true)).1 = 1
    ∧ (broadcast_to_organization stTwoOrgs 2 (Msg.other "hello")
        (fun _ => true)).2.sentLog = [(10, Msg.other "hello")] := by
  have h := C5_broadcast_exact stTwoOrgs 2 (Msg.other "hello") (fun _ => true)
    ⟨by decide, by decide⟩
  refine ⟨?_, ?_⟩
  · rw [h.1]; decide
  · rw [h.2.1]; decide

/-! ## Lemmas about waiter cancellation (for C2) -/

theorem cancelOne_preserve_cancelled {fs : List (FId × FutureState)} {fid : FId}
    (h : alookup fid fs = some .cancelled) (fid' : FId) :
    alookup fid (cancelOne fs fid') = some .cancelled := by
  unfold cancelOne
  split
  · next heq =>
      by_cases he : fid' = fid
      · subst he
        rw [h] at heq
        cases heq
      · rw [alookup_ainsert_ne he]
        exact h
  · exact h

theorem cancelOne_pending_or_cancelled {fs : List (FId × FutureState)} {fid : FId}
    (h : alookup fid fs = some .pending ∨ alookup fid fs = some .cancelled)
    (fid' : FId) :
    alookup fid (cancelOne fs fid') = some .pending
    ∨ alookup fid (cancelOne fs fid') = some .cancelled := by
  unfold cancelOne
  split
  · next heq =>
      by_cases he : fid' = fid
      · subst he
        right
        exact alookup_ainsert_self _ _ fs
      · rw [alookup_ainsert_ne he]
        exact h
  · exact h

theorem cancelOne_self_cancels {fs : List (FId × FutureState)} {fid : FId}
    (h : alookup fid fs = some .pending) :
    alookup fid (cancelOne fs fid) = some .cancelled := by
  unfold cancelOne
  rw [h]
  simp

theorem cancelPending_preserve_cancelled :
    ∀ (reqs : List (String × FId)) (fs : List (FId × FutureState)) (fid : FId),
      alookup fid fs = some .cancelled →
      alookup fid (cancelPending reqs fs) = some .cancelled
  | [], _, _, h => h
  | p :: reqs, fs, fid, h =>
      cancelPending_preserve_cancelled reqs (cancelOne fs p.2) fid
        (cancelOne_preserve_cancelled h p.2)

theorem cancelPending_cancels (request_id : String) (fid : FId) :
    ∀ (reqs : List (String × FId)) (fs : List (FId × FutureState)),
      (request_id, fid) ∈ reqs →
      (alookup fid fs = some .pending ∨ alookup fid fs = some .cancelled) →
      alookup fid (cancelPending reqs fs) = some .cancelled := by
  intro reqs
  induction reqs with
  | nil => intro fs hm _; cases hm
  | cons p rest ih =>
      intro fs hm hpc
      rcases List.mem_cons.mp hm with heq | hmem
      · have hp2 : p.2 = fid := by rw [← heq]
        have h2 : alookup fid (cancelOne fs p.2) = some .cancelled := by
          rw [hp2]
          rcases hpc with h | h
          · exact cancelOne_self_cancels h
          · exact cancelOne_preserve_cancelled h fid
        exact cancelPending_preserve_cancelled rest (cancelOne fs p.2) fid h2
      · exact ih (cancelOne fs p.2) hmem (cancelOne_pending_or_cancelled hpc p.2)

theorem popWaiter_absent (st : MState) (mid : UUID) (rid : String) (fid : FId)
    (h : alookup mid st.connections = none) : popWaiter st mid rid fid = st := by
  unfold popWaiter
  rw [h]

/-- C2 counterexample: machine 1 registers, a `request_with_response`
caller suspends on correlation id `"r1"` (future 0), and the connection is
unregistered while the caller is suspended.  The claim says the call then
returns an absent result (`None`); in fact the cancelled future makes
`asyncio.wait_for` raise `CancelledError`, which neither `except` clause
catches, so the call does not return `None` — the exception propagates. -/
theorem C2_counterexample :
    (rwr_finish stAwaitGone 1 "r1" 0).1 = RwrResult.raiseCancelled
    ∧ (rwr_finish stAwaitGone 1 "r1" 0).1 ≠ RwrResult.ret none := by
  exact ⟨by decide, by decide⟩

/-- C2 (amended): if a connection is unregistered while a caller is
suspended in `send_and_await` on one of that connection's pending
correlation ids, the waiter's future is cancelled at that moment, so the
caller is released immediately — without waiting out its full timeout —
but with `asyncio.CancelledError` propagating out of the call instead of
an absent (`None`) result; the waiter entry does not survive (the record
itself is gone from the registry, and the `finally` pop touches nothing
else). -/
theorem C2_unregister_cancels_waiter (st : MState) (machine_id : UUID)
    (gw : ConnectedGateway) (request_id : String) (fid : FId)
    (hgw : alookup machine_id st.connections = some gw)
    (hreq : alookup request_id gw.pending_requests = some fid)
    (hfut : alookup fid st.futures = some FutureState.pending) :
    alookup fid (unregister st machine_id).futures = some FutureState.cancelled
    ∧ rwr_finish (unregister st machine_id) machine_id request_id fid
        = (RwrResult.raiseCancelled, unregister st machine_id)
    ∧ alookup machine_id (unregister st machine_id).connections = none := by
  have hc : alookup fid (unregister st machine_id).futures
      = some FutureState.cancelled := by
    rw [unregister_some st machine_id gw hgw]
    exact cancelPending_cancels request_id fid gw.pending_requests st.futures
      (mem_of_alookup_eq_some hreq) (Or.inl hfut)
  have hnone : alookup machine_id (unregister st machine_id).connections = none :=
    unregister_lookup_self st machine_id
  refine ⟨hc, ?_, hnone⟩
  unfold rwr_finish
  rw [hc]
  rw [popWaiter_absent _ _ _ _ hnone]

/-- Witness for the amended C2 at the concrete suspended state: after
`unregister`, future 0 is cancelled, the call raises, and machine 1 is
gone from the registry. -/
theorem C2_witness :
    alookup 0 (unregister stAwait 1).futures = some FutureState.cancelled
    ∧ rwr_finish (unregister stAwait 1) 1 "r1" 0
        = (RwrResult.raiseCancelled, unregister stAwait 1)
    ∧ alookup 1 (unregister stAwait 1).connections = none := by
  exact C2_unregister_cancels_waiter stAwait 1 gwAwait "r1" 0 (by decide) (by decide)
    (by decide)

/-! ## Connection-shape lemmas for each operation (for C3) -/

theorem update_heartbeat_absent (st : MState) (now : Time) (mid' : UUID)
    (ag : Option Int) (h0 : alookup mid' st.connections = none) :
    update_heartbeat st now mid' ag = st := by
  unfold update_heartbeat
  rw [h0]

theorem update_heartbeat_connections_some (st : MState) (now : Time) (mid' : UUID)
    (ag : Option Int) (gw0 : ConnectedGateway)
    (h0 : alookup mid' st.connections = some gw0) :
    (update_heartbeat st now mid' ag).connections
      = ainsert mid' { gw0 with last_heartbeat_at := now
                                agents_managed := ag.getD gw0.agents_managed }
          st.connections := by
  unfold update_heartbeat
  rw [h0]

theorem register_terminal_session_absent (st : MState) (mid' : UUID)
    (sid : String) (ws : Ws) (h0 : alookup mid' st.connections = none) :
    register_terminal_session st mid' sid ws = st := by
  unfold register_terminal_session
  rw [h0]

theorem register_terminal_session_connections_some (st : MState) (mid' : UUID)
    (sid : String) (ws : Ws) (gw0 : ConnectedGateway)
    (h0 : alookup mid' st.connections = some gw0) :
    (register_terminal_session st mid' sid ws).connections
      = ainsert mid' { gw0 with
          terminal_sessions := ainsert sid ws gw0.terminal_sessions }
          st.connections := by
  unfold register_terminal_session
  rw [h0]

theorem unregister_terminal_session_absent (st : MState) (mid' : UUID)
    (sid : String) (h0 : alookup mid' st.connections = none) :
    unregister_terminal_session st mid' sid = st := by
  unfold unregister_terminal_session
  rw [h0]

theorem unregister_terminal_session_connections_some (st : MState) (mid' : UUID)
    (sid : String) (gw0 : ConnectedGateway)
    (h0 : alookup mid' st.connections = some gw0) :
    (unregister_terminal_session st mid' sid).connections
      = ainsert mid' { gw0 with
          terminal_sessions := aerase sid gw0.terminal_sessions }
          st.connections := by
  unfold unregister_terminal_session
  rw [h0]

theorem unregister_connections_some (st : MState) (mid' : UUID)
    (gw0 : ConnectedGateway) (h0 : alookup mid' st.connections = some gw0) :
    (unregister st mid').connections = aerase mid' st.connections := by
  rw [unregister_some st mid' gw0 h0]

theorem relay_connections_cases (st : MState) (mid' : UUID) (sid c : String)
    (ok : Bool) :
    (relay_terminal_output st mid' sid c ok).2.connections = st.connections
    ∨ ∃ gw0, alookup mid' st.connections = some gw0
        ∧ (relay_terminal_output st mid' sid c ok).2.connections
            = ainsert mid' { gw0 with
                terminal_sessions := aerase sid gw0.terminal_sessions }
                st.connections := by
  cases h0 : alookup mid' st.connections with
  | none =>
      left
      have h : relay_terminal_output st mid' sid c ok = (false, st) := by
        unfold relay_terminal_output
        rw [h0]
      rw [h]
  | some gw0 =>
      cases h1 : alookup sid gw0.terminal_sessions with
      | none =>
          left
          have h : relay_terminal_output st mid' sid c ok = (false, st) := by
            simp only [relay_terminal_output, h0, h1]
          rw [h]
      | some w =>
          cases ok with
          | true =>
              left
              have h : relay_terminal_output st mid' sid c true
                  = (true, { st with sentLog := st.sentLog ++ [(w, .output c)] }) := by
                simp only [relay_terminal_output, h0, h1]
                rfl
              rw [h]
          | false =>
              right
              refine ⟨gw0, rfl, ?_⟩
              simp [relay_terminal_output, h0, h1]

/-! ## Stability of an installed waiter binding under every operation -/

theorem waiterStable_of_eq {mid : UUID} {rid : String} {fid : FId}
    {st1 st2 : MState} (he : st1.connections = st2.connections)
    (h : WaiterStable mid rid fid st2) : WaiterStable mid rid fid st1 :=
  fun gw hgw => h gw (he ▸ hgw)

theorem waiterStable_ainsert_empty {mid : UUID} {rid : String} {fid : FId}
    {st st' : MState} (mid' : UUID) {gw' : ConnectedGateway}
    (h : WaiterStable mid rid fid st)
    (hc : st'.connections = ainsert mid' gw' st.connections)
    (hp : gw'.pending_requests = []) :
    WaiterStable mid rid fid st' := by
  intro gw hgw
  rw [hc] at hgw
  by_cases he : mid' = mid
  · subst he
    rw [alookup_ainsert_self] at hgw
    cases hgw
    right
    rw [hp]
    rfl
  · rw [alookup_ainsert_ne he] at hgw
    exact h gw hgw

theorem waiterStable_ainsert_keep {mid : UUID} {rid : String} {fid : FId}
    {st st' : MState} (mid' : UUID) {gw0 gw' : ConnectedGateway}
    (h : WaiterStable mid rid fid st)
    (h0 : alookup mid' st.connections = some gw0)
    (hc : st'.connections = ainsert mid' gw' st.connections)
    (hp : gw'.pending_requests = gw0.pending_requests) :
    WaiterStable mid rid fid st' := by
  intro gw hgw
  rw [hc] at hgw
  by_cases he : mid' = mid
  · subst he
    rw [alookup_ainsert_self] at hgw
    cases hgw
    rw [hp]
    exact h gw0 h0
  · rw [alookup_ainsert_ne he] at hgw
    exact h gw hgw

theorem waiterStable_unregister {mid : UUID} {rid : String} {fid : FId}
    (mid' : UUID) {st : MState} (h : WaiterStable mid rid fid st) :
    WaiterStable mid rid fid (unregister st mid') := by
  cases h0 : alookup mid' st.connections with
  | none =>
      rw [unregister_absent st mid' h0]
      exact h
  | some gw0 =>
      intro gw hgw
      rw [unregister_connections_some st mid' gw0 h0] at hgw
      by_cases he : mid' = mid
      · subst he
        rw [alookup_aerase_self] at hgw
        cases hgw
      · rw [alookup_aerase_ne he] at hgw
        exact h gw hgw

theorem waiterStable_stepEvent {mid : UUID} {rid : String} {fid : FId}
    {st : MState} (h : WaiterStable mid rid fid st) (e : Event) :
    WaiterStable mid rid fid (stepEvent st e) := by
  cases e with
  | evRegister now mid' org cid ws ver =>
      exact waiterStable_ainsert_empty mid' h
        (register_connections st now mid' org cid ws ver) rfl
  | evUnregister mid' =>
      exact waiterStable_unregister mid' h
  | evHandleResponse mid' rid' resp =>
      exact waiterStable_of_eq (handle_response_connections st mid' rid' resp) h
  | evUpdateHeartbeat now mid' ag =>
      cases h0 : alookup mid' st.connections with
      | none =>
          show WaiterStable mid rid fid (update_heartbeat st now mid' ag)
          rw [update_heartbeat_absent st now mid' ag h0]
          exact h
      | some gw0 =>
          exact waiterStable_ainsert_keep mid' h h0
            (update_heartbeat_connections_some st now mid' ag gw0 h0) rfl
  | evSendMessage mid' m ok =>
      cases h0 : alookup mid' st.connections with
      | none =>
          show WaiterStable mid rid fid (send_message st mid' m ok).2
          rw [send_message_none st mid' m ok h0]
          exact h
      | some gw0 =>
          cases ok with
          | true =>
              show WaiterStable mid rid fid (send_message st mid' m true).2
              rw [send_message_true st mid' m gw0 h0]
              exact waiterStable_of_eq rfl h
          | false =>
              show WaiterStable mid rid fid (send_message st mid' m false).2
              rw [send_message_false st mid' m gw0 h0]
              exact waiterStable_unregister mid' h
  | evRegisterTerminal mid' sid ws =>
      cases h0 : alookup mid' st.connections with
      | none =>
          show WaiterStable mid rid fid (register_terminal_session st mid' sid ws)
          rw [register_terminal_session_absent st mid' sid ws h0]
          exact h
      | some gw0 =>
          exact waiterStable_ainsert_keep mid' h h0
            (register_terminal_session_connections_some st mid' sid ws gw0 h0) rfl
  | evUnregisterTerminal mid' sid =>
      cases h0 : alookup mid' st.connections with
      | none =>
          show WaiterStable mid rid fid (unregister_terminal_session st mid' sid)
          rw [unregister_terminal_session_absent st mid' sid h0]
          exact h
      | some gw0 =>
          exact waiterStable_ainsert_keep mid' h h0
            (unregister_terminal_session_connections_some st mid' sid gw0 h0) rfl
  | evRelayOutput mid' sid c ok =>
      rcases relay_connections_cases st mid' sid c ok with hce | ⟨gw0, h0, hce⟩
      · exact waiterStable_of_eq hce h
      · exact waiterStable_ainsert_keep mid' h h0 hce rfl

theorem waiterStable_runEvents {mid : UUID} {rid : String} {fid : FId} :
    ∀ (es : List Event) {st : MState}, WaiterStable mid rid fid st →
      WaiterStable mid rid fid (runEvents st es) := by
  intro es
  induction es with
  | nil => intro st h; exact h
  | cons e es ih =>
      intro st h
      exact ih (waiterStable_stepEvent h e)

/-! ## Equations for the `request_with_response` segments -/

theorem rwr_start_none (st : MState) (mid : UUID) (rid rty : String)
    (pl : Payload) (ok : Bool) (h : alookup mid st.connections = none) :
    rwr_start st mid rid rty pl ok = (.noRecord, st) := by
  unfold rwr_start
  rw [h]

theorem rwr_start_some_true (st : MState) (mid : UUID) (rid rty : String)
    (pl : Payload) (gw : ConnectedGateway)
    (h : alookup mid st.connections = some gw) :
    rwr_start st mid rid rty pl true
      = (.awaiting st.nextF, startStateSent st mid rid rty pl gw) := by
  unfold rwr_start startStateSent startState
  rw [h]
  rfl

theorem rwr_start_some_false (st : MState) (mid : UUID) (rid rty : String)
    (pl : Payload) (gw : ConnectedGateway)
    (h : alookup mid st.connections = some gw) :
    rwr_start st mid rid rty pl false
      = (.sendFailed, popWaiter (startState st mid rid gw) mid rid st.nextF) := by
  unfold rwr_start startState
  rw [h]
  rfl

theorem rwr_run_none (st : MState) (mid : UUID) (rid rty : String)
    (pl : Payload) (ok : Bool) (es : List Event)
    (h : alookup mid st.connections = none) :
    rwr_run st mid rid rty pl ok es = (.ret none, st) := by
  unfold rwr_run
  rw [rwr_start_none st mid rid rty pl ok h]

theorem rwr_run_false (st : MState) (mid : UUID) (rid rty : String)
    (pl : Payload) (es : List Event) (gw : ConnectedGateway)
    (h : alookup mid st.connections = some gw) :
    rwr_run st mid rid rty pl false es
      = (.ret none, popWaiter (startState st mid rid gw) mid rid st.nextF) := by
  unfold rwr_run
  rw [rwr_start_some_false st mid rid rty pl gw h]

theorem rwr_run_true (st : MState) (mid : UUID) (rid rty : String)
    (pl : Payload) (es : List Event) (gw : ConnectedGateway)
    (h : alookup mid st.connections = some gw) :
    rwr_run st mid rid rty pl true es
      = rwr_finish (runEvents (startStateSent st mid rid rty pl gw) es)
          mid rid st.nextF := by
  unfold rwr_run
  rw [rwr_start_some_true st mid rid rty pl gw h]

theorem rwr_finish_resolved (st : MState) (mid : UUID) (rid : String)
    (fid : FId) (r : Payload) (hf : alookup fid st.futures = some (.resolved r)) :
    rwr_finish st mid rid fid = (.ret (some r), popWaiter st mid rid fid) := by
  unfold rwr_finish
  rw [hf]

theorem rwr_finish_cancelled_eq (st : MState) (mid : UUID) (rid : String)
    (fid : FId) (hf : alookup fid st.futures = some .cancelled) :
    rwr_finish st mid rid fid = (.raiseCancelled, popWaiter st mid rid fid) := by
  unfold rwr_finish
  rw [hf]

theorem rwr_finish_pending (st : MState) (mid : UUID) (rid : String)
    (fid : FId) (hf : alookup fid st.futures = some .pending) :
    rwr_finish st mid rid fid
      = (.ret none, popWaiter { st with futures := ainsert fid .cancelled st.futures }
          mid rid fid) := by
  unfold rwr_finish
  rw [hf]

theorem rwr_finish_nofut (st : MState) (mid : UUID) (rid : String)
    (fid : FId) (hf : alookup fid st.futures = none) :
    rwr_finish st mid rid fid
      = (.ret none, popWaiter { st with futures := ainsert fid .cancelled st.futures }
          mid rid fid) := by
  unfold rwr_finish
  rw [hf]

/-! ## The pop in `finally` clears the waiter binding -/

theorem popWaiter_found (st : MState) (mid : UUID) (rid : String) (fid : FId)
    (gw : ConnectedGateway) (h0 : alookup mid st.connections = some gw)
    (hb : alookup rid gw.pending_requests = some fid) :
    popWaiter st mid rid fid
      = { st with
          connections := ainsert mid
              { gw with pending_requests := aerase rid gw.pending_requests }
              st.connections } := by
  simp only [popWaiter, h0]
  rw [if_pos hb]

theorem popWaiter_not_found (st : MState) (mid : UUID) (rid : String) (fid : FId)
    (gw : ConnectedGateway) (h0 : alookup mid st.connections = some gw)
    (hb : ¬ alookup rid gw.pending_requests = some fid) :
    popWaiter st mid rid fid = st := by
  simp only [popWaiter, h0]
  rw [if_neg hb]

theorem popWaiter_clears {mid : UUID} {rid : String} {fid : FId} {st : MState}
    (h : WaiterStable mid rid fid st) :
    ∀ gw', alookup mid (popWaiter st mid rid fid).connections = some gw' →
      alookup rid gw'.pending_requests = none := by
  intro gw' hgw'
  cases h0 : alookup mid st.connections with
  | none =>
      rw [popWaiter_absent st mid rid fid h0, h0] at hgw'
      cases hgw'
  | some gw =>
      rcases h gw h0 with hb | hb
      · have hconn : (popWaiter st mid rid fid).connections
            = ainsert mid
                { gw with pending_requests := aerase rid gw.pending_requests }
                st.connections := by
          rw [popWaiter_found st mid rid fid gw h0 hb]
        rw [hconn, alookup_ainsert_self] at hgw'
        cases hgw'
        exact alookup_aerase_self rid gw.pending_requests
      · have hne : ¬ alookup rid gw.pending_requests = some fid := by
          rw [hb]
          intro hcon
          cases hcon
        rw [popWaiter_not_found st mid rid fid gw h0 hne, h0] at hgw'
        cases hgw'
        exact hb

theorem rwr_finish_clears {mid : UUID} {rid : String} {fid : FId} {st : MState}
    (h : WaiterStable mid rid fid st) :
    ∀ gw', alookup mid (rwr_finish st mid rid fid).2.connections = some gw' →
      alookup rid gw'.pending_requests = none := by
  intro gw' hgw'
  cases hf : alookup fid st.futures with
  | none =>
      rw [rwr_finish_nofut st mid rid fid hf] at hgw'
      exact @popWaiter_clears mid rid fid
        { st with futures := ainsert fid .cancelled st.futures }
        (waiterStable_of_eq rfl h) gw' hgw'
  | some fs =>
      cases fs with
      | pending =>
          rw [rwr_finish_pending st mid rid fid hf] at hgw'
          exact @popWaiter_clears mid rid fid
            { st with futures := ainsert fid .cancelled st.futures }
            (waiterStable_of_eq rfl h) gw' hgw'
      | resolved r =>
          rw [rwr_finish_resolved st mid rid fid r hf] at hgw'
          exact popWaiter_clears h gw' hgw'
      | cancelled =>
          rw [rwr_finish_cancelled_eq st mid rid fid hf] at hgw'
          exact popWaiter_clears h gw' hgw'

theorem waiterStable_startState (st : MState) (mid : UUID) (rid : String)
    (gw : ConnectedGateway) :
    WaiterStable mid rid st.nextF (startState st mid rid gw) := by
  intro gwx hgwx
  have hc : (startState st mid rid gw).connections
      = ainsert mid
          { gw with pending_requests := ainsert rid st.nextF gw.pending_requests }
          st.connections := rfl
  rw [hc, alookup_ainsert_self] at hgwx
  cases hgwx
  left
  exact alookup_ainsert_self rid st.nextF gw.pending_requests

theorem waiterStable_startStateSent (st : MState) (mid : UUID)
    (rid rty : String) (pl : Payload) (gw : ConnectedGateway) :
    WaiterStable mid rid st.nextF (startStateSent st mid rid rty pl gw) :=
  waiterStable_of_eq rfl (waiterStable_startState st mid rid gw)

/-- C3: every `send_and_await` call yields exactly one outcome, matching
the code's case split — absent immediately when the identity has no record
(with the state, hence send log and waiter maps, untouched), absent when
the transmission fails, absent when no resolution arrives before the
timeout, the reply payload when a matching response is dispatched — and in
every terminal case, whatever operations ran while the caller was
suspended, the record registered for that identity afterwards holds no
waiter entry for the call's correlation id. -/
theorem C3_rwr_outcomes (st : MState) (machine_id : UUID)
    (request_id request_type : String) (payload : Payload) :
    (∀ sendOk es, alookup machine_id st.connections = none →
        rwr_run st machine_id request_id request_type payload sendOk es
          = (RwrResult.ret none, st))
    ∧ (∀ sendOk es gw', alookup machine_id
          (rwr_run st machine_id request_id request_type payload sendOk es).2.connections
            = some gw' →
        alookup request_id gw'.pending_requests = none)
    ∧ (∀ es gw, alookup machine_id st.connections = some gw →
        (rwr_run st machine_id request_id request_type payload false es).1
          = RwrResult.ret none)
    ∧ (∀ gw, alookup machine_id st.connections = some gw →
        (rwr_run st machine_id request_id request_type payload true []).1
          = RwrResult.ret none)
    ∧ (∀ gw r, alookup machine_id st.connections = some gw →
        (rwr_run st machine_id request_id request_type payload true
            [Event.evHandleResponse machine_id request_id r]).1
          = RwrResult.ret (some r)) := by
  refine ⟨?_, ?_, ?_, ?_, ?_⟩
  · intro sendOk es h
    exact rwr_run_none st machine_id request_id request_type payload sendOk es h
  · intro sendOk es gw' hgw'
    cases h0 : alookup machine_id st.connections with
    | none =>
        rw [rwr_run_none st machine_id request_id request_type payload sendOk es h0,
          h0] at hgw'
        cases hgw'
    | some gw =>
        cases sendOk with
        | false =>
            rw [rwr_run_false st machine_id request_id request_type payload es gw h0]
              at hgw'
            exact popWaiter_clears
              (waiterStable_startState st machine_id request_id gw) gw' hgw'
        | true =>
            rw [rwr_run_true st machine_id request_id request_type payload es gw h0]
              at hgw'
            exact rwr_finish_clears
              (waiterStable_runEvents es
                (waiterStable_startStateSent st machine_id request_id request_type
                  payload gw)) gw' hgw'
  · intro es gw h0
    rw [rwr_run_false st machine_id request_id request_type payload es gw h0]
  · intro gw h0
    rw [rwr_run_true st machine_id request_id request_type payload [] gw h0]
    have hf : alookup st.nextF
        (runEvents (startStateSent st machine_id request_id request_type payload gw)
          []).futures = some FutureState.pending := by
      show alookup st.nextF (ainsert st.nextF .pending st.futures) = some .pending
      exact alookup_ainsert_self st.nextF .pending st.futures
    rw [rwr_finish_pending _ _ _ _ hf]
  · intro gw r h0
    rw [rwr_run_true st machine_id request_id request_type payload
      [Event.evHandleResponse machine_id request_id r] gw h0]
    have hresolved : runEvents
        (startStateSent st machine_id request_id request_type payload gw)
        [Event.evHandleResponse machine_id request_id r]
      = { startStateSent st machine_id request_id request_type payload gw with
          futures :=
            ainsert st.nextF (.resolved r)
              (startStateSent st machine_id request_id request_type payload gw).futures } := by
      show handle_response
          (startStateSent st machine_id request_id request_type payload gw)
          machine_id request_id r = _
      have h1 : alookup machine_id
          (startStateSent st machine_id request_id request_type payload gw).connections
          = some { gw with
              pending_requests := ainsert request_id st.nextF gw.pending_requests } :=
        alookup_ainsert_self machine_id _ st.connections
      have h2 : alookup request_id
          ({ gw with
              pending_requests := ainsert request_id st.nextF gw.pending_requests }
            : ConnectedGateway).pending_requests = some st.nextF :=
        alookup_ainsert_self request_id st.nextF gw.pending_requests
      have h3 : alookup st.nextF
          (startStateSent st machine_id request_id request_type payload gw).futures
          = some FutureState.pending :=
        alookup_ainsert_self st.nextF FutureState.pending st.futures
      simp only [handle_response, h1, h2, h3]
    rw [hresolved]
    have hf : alookup st.nextF
        ({ startStateSent st machine_id request_id request_type payload gw with
            futures :=
              ainsert st.nextF (.resolved r)
                (startStateSent st machine_id request_id request_type payload gw).futures }
          : MState).futures = some (FutureState.resolved r) :=
      alookup_ainsert_self st.nextF _ _
    rw [rwr_finish_resolved _ _ _ _ _ hf]

/-- Witness for C3: on the empty registry the call returns absent with the
state untouched; on the one-gateway registry a dispatched response is
returned as the reply, and afterwards the registered record holds no
waiter for the correlation id. -/
theorem C3_witness :
    rwr_run MState.empty 1 "r9" "status" "q" true [] = (RwrResult.ret none, MState.empty)
    ∧ (rwr_run stReg 1 "r9" "status" "q" true
        [Event.evHandleResponse 1 "r9" "ans"]).1 = RwrResult.ret (some "ans")
    ∧ ∀ gw', alookup 1 (rwr_run stReg 1 "r9" "status" "q" true
        [Event.evHandleResponse 1 "r9" "ans"]).2.connections = some gw' →
        alookup "r9" gw'.pending_requests = none := by
  have he := C3_rwr_outcomes MState.empty 1 "r9" "status" "q"
  have hr := C3_rwr_outcomes stReg 1 "r9" "status" "q"
  exact ⟨he.1 true [] rfl, hr.2.2.2.2 gwReg "ans" (by decide),
    fun gw' hgw' => hr.2.1 true [Event.evHandleResponse 1 "r9" "ans"] gw' hgw'⟩

end GatewayMgr
